import Mathlib

/-!
Verification of the authentication resolution cascade and tier-gated
admission of the pollinations repository.

The JavaScript sources embedded here are:
  * `src/shared/auth-utils.js` — credential extraction helpers,
    the three trust-service lookups, `validateEnterToken`,
    `shouldBypassQueue` (the cascade) and `handleAuthentication`;
  * `src/text.pollinations.ai/src/index.ts` — the tier gate and the
    queue-interval selection inside `handleTextGeneration`.

Modelling conventions:
  * JavaScript strings that may be `null`/`undefined` become
    `Option String`; JS truthiness (`null`, `undefined` and `""` are
    falsy) is the `truthy` predicate and `a || b` on such values is `jsOr`.
  * A `fetch` call is a value of `FetchOutcome α`: either a thrown
    network exception, or a response with an HTTP status and an optional
    parsed JSON body (`none` models a body whose parse throws or parses
    to a falsy value — both paths return `null` in the source).
  * The remote trust service is an oracle bundle `TrustService` mapping
    each request key to its `FetchOutcome`; `parseHost` models
    `new URL(r).hostname` (`none` = the URL constructor throws).
  * `debugInfo` is modelled with the fields that are mutated by the
    cascade or consumed downstream in the sources (`authResult`,
    `userId`, `username`, `tier`, plus the `token`, `tokenSource` and
    `referrer` echoes read by `addAuthDebugHeaders` /
    `createAuthDebugResponse`). The `enterToken` and `githubUserId`
    echo fields are never read by any code in the sources and are omitted.
-/

namespace Pollinations

/-- JS truthiness for an optional string: `null`/`undefined` (here `none`)
and the empty string are falsy, every other string is truthy. -/
def truthy : Option String → Bool
  | none => false
  | some s => s ≠ ""

/-- JS `a || b` restricted to nullable strings, normalising a falsy final
result to `none` (as in `a || b || null`). -/
def jsOr (a b : Option String) : Option String :=
  if truthy a then a else if truthy b then b else none

/-- JS `a || d` where the fallback `d` is a string literal. -/
def jsOrStr (a : Option String) (d : String) : String :=
  match a with
  | some s => if s ≠ "" then s else d
  | none => d

/-- Outcome of a `fetch` call: a thrown exception, or a response carrying
the HTTP status code and the optional parsed JSON body (`none` body models
a `response.json()` that throws or yields a falsy value). -/
inductive FetchOutcome (α : Type) where
  | exception : FetchOutcome α
  | response (status : Nat) (body : Option α) : FetchOutcome α

/-- `response.ok` of the fetch API: status in the range 200–299. -/
def okStatus (status : Nat) : Bool := 200 ≤ status && status < 300

/-- JSON body of `GET /api/validate-token/{token}`. -/
structure TokenResponse where
  valid : Bool
  userId : Option String
  username : Option String
  tier : Option String
deriving Repr, DecidableEq

/-- JSON body of `GET /api/validate-referrer?referrer={domain}`. -/
structure ReferrerResponse where
  valid : Bool
  user_id : Option String
  username : Option String
  tier : Option String
deriving Repr, DecidableEq

/-- The `user` object of `GET /admin/user-info`. -/
structure GithubUser where
  github_user_id : Option String
  username : Option String
deriving Repr, DecidableEq

/-- The `userTier` object of `GET /admin/user-info`. -/
structure UserTier where
  tier : Option String
deriving Repr, DecidableEq

/-- JSON body of `GET /admin/user-info?user_id={id}`. -/
structure UserInfoResponse where
  user : Option GithubUser
  userTier : Option UserTier
deriving Repr, DecidableEq

/-- The `{userId, username, tier}` object produced by a successful trust
lookup (`_validateApiTokenDb`, `_checkReferrerInDb`,
`_getUserTierFromGithubId` all return this shape or `null`). -/
structure UserValue where
  userId : Option String
  username : Option String
  tier : Option String
deriving Repr, DecidableEq

/-- Embedding of `_validateApiTokenDb` (auth-utils.js lines 122–184): no
token → `null`; thrown fetch → caught, `null`; non-2xx → `null`; body that
fails the `data && data.valid && data.userId` guard → `null`; otherwise
the user object with `username` defaulting to `userId` and `tier`
defaulting to `"seed"`. -/
def validateApiTokenDb (token : Option String)
    (resp : FetchOutcome TokenResponse) : Option UserValue :=
  if !truthy token then none
  else
    match resp with
    | .exception => none
    | .response status body =>
      if okStatus status then
        match body with
        | none => none
        | some data =>
          if data.valid && truthy data.userId then
            some { userId := data.userId,
                   username := jsOr data.username data.userId,
                   tier := jsOr data.tier (some "seed") }
          else none
      else none

/-- Boolean string prefix test (JS `String.prototype.startsWith`),
defined over character lists so that concrete instances reduce. -/
def strStartsWith (s p : String) : Bool := p.data.isPrefixOf s.data

/-- Embedding of the referrer-normalisation step of `_checkReferrerInDb`
(auth-utils.js lines 63–73): if the referrer starts with a scheme, parse
it as a URL and keep the hostname; if parsing throws, fall back to the
raw referrer string; without a scheme the raw string is used directly. -/
def referrerDomain (parseHost : String → Option String) (referrer : String) : String :=
  if strStartsWith referrer "http://" || strStartsWith referrer "https://" then
    match parseHost referrer with
    | some h => h
    | none => referrer
  else referrer

/-- Embedding of `_checkReferrerInDb` (auth-utils.js lines 59–109): the
domain lookup is keyed by the normalised domain; failures and the
`data && data.valid && data.user_id` guard all yield `null`. -/
def checkReferrerInDb (parseHost : String → Option String)
    (referrer : Option String)
    (fetchFor : String → FetchOutcome ReferrerResponse) : Option UserValue :=
  if !truthy referrer then none
  else
    let domain := referrerDomain parseHost (referrer.getD "")
    match fetchFor domain with
    | .exception => none
    | .response status body =>
      if okStatus status then
        match body with
        | none => none
        | some data =>
          if data.valid && truthy data.user_id then
            some { userId := data.user_id,
                   username := data.username,
                   tier := data.tier }
          else none
      else none

/-- Embedding of `_getUserTierFromGithubId` (auth-utils.js lines 289–330):
guard is `data && data.user`; `tier` is `data.userTier ? data.userTier.tier
: 'seed'`; `username` falls back to the github id. -/
def getUserTierFromGithubId (githubUserId : Option String)
    (resp : FetchOutcome UserInfoResponse) : Option UserValue :=
  if !truthy githubUserId then none
  else
    match resp with
    | .exception => none
    | .response status body =>
      if okStatus status then
        match body with
        | none => none
        | some data =>
          match data.user with
          | none => none
          | some u =>
            some { userId := u.github_user_id,
                   username := jsOr u.username u.github_user_id,
                   tier := match data.userTier with
                           | some ut => ut.tier
                           | none => some "seed" }
      else none

/-- A fetch outcome on which every trust lookup returns `null`: a thrown
exception, a non-2xx status, or a 2xx response whose body fails to parse
to a usable object. -/
def FetchOutcome.failed : FetchOutcome α → Bool
  | .exception => true
  | .response status body => !okStatus status || body.isNone

/-- Server-side configuration relevant to the cascade: the value of
`process.env.ENTER_TOKEN` (absent when the variable is unset). -/
structure Env where
  ENTER_TOKEN : Option String
deriving Repr, DecidableEq

/-- Embedding of `validateEnterToken` (auth-utils.js lines 272–282): no
token → false; `ENTER_TOKEN` unset → a log message and false (the cascade
then continues like any other failed strategy); otherwise strict string
equality. -/
def validateEnterToken (enterToken : Option String) (env : Env) : Bool :=
  if !truthy enterToken then false
  else if !truthy env.ENTER_TOKEN then false
  else enterToken == env.ENTER_TOKEN

/-- The oracle bundle standing for the remote trust service and the JS
URL parser, mapping each key to the outcome the network would produce. -/
structure TrustService where
  tokenFetch : String → FetchOutcome TokenResponse
  referrerFetch : String → FetchOutcome ReferrerResponse
  githubFetch : String → FetchOutcome UserInfoResponse
  parseHost : String → Option String

/-- An inbound request as seen by `shouldBypassQueue`: its headers, and
the results of `extractToken` / `extractReferrer` / `getTokenSource`
(defined in `extractFromRequest.js`, outside the embedded sources, so
carried as fields). -/
structure Request where
  headers : List (String × String)
  token : Option String
  ref : Option String
  tokenSource : Option String
deriving Repr, DecidableEq

/-- First header with the given exact name, if any. -/
def Request.header (req : Request) (name : String) : Option String :=
  (req.headers.find? (fun p => p.1 == name)).map (fun p => p.2)

/-- Embedding of `extractEnterToken` (auth-utils.js lines 250–254):
`headers['x-enter-token'] || headers['X-Enter-Token'] || null`. -/
def extractEnterToken (req : Request) : Option String :=
  jsOr (req.header "x-enter-token") (req.header "X-Enter-Token")

/-- Embedding of `extractGithubUserId` (auth-utils.js lines 261–265):
`headers['x-github-id'] || headers['X-Github-Id'] || null`. -/
def extractGithubUserId (req : Request) : Option String :=
  jsOr (req.header "x-github-id") (req.header "X-Github-Id")

/-- The token echo used in `debugInfo`: a token longer than 8 characters
is shown as its first four characters, an ellipsis, and its last four. -/
def maskToken (token : String) : String :=
  if token.length > 8 then
    String.mk (token.data.take 4) ++ "..." ++
      String.mk (token.data.drop (token.length - 4))
  else token

/-- The `debugInfo` object of `shouldBypassQueue`, restricted to the
fields the sources mutate or read downstream. -/
structure DebugInfo where
  token : Option String
  referrer : Option String
  tokenSource : Option String
  authResult : Option String
  userId : Option String
  username : Option String
  tier : Option String
deriving Repr, DecidableEq

/-- The object returned by `shouldBypassQueue`. -/
structure AuthVerdict where
  authenticated : Bool
  tokenAuth : Bool
  referrerAuth : Bool
  reason : String
  userId : Option String
  username : Option String
  tier : Option String
  debugInfo : DebugInfo
deriving Repr, DecidableEq

/-- The return object of the `ENTER_TOKEN_WITH_GITHUB` branch
(auth-utils.js lines 409–420). -/
def enterGithubVerdict (r : UserValue) (d : DebugInfo) : AuthVerdict :=
  { authenticated := true, tokenAuth := true, referrerAuth := false,
    reason := "ENTER_TOKEN_WITH_GITHUB",
    userId := r.userId, username := r.username, tier := r.tier,
    debugInfo := { d with authResult := some "ENTER_TOKEN_WITH_GITHUB",
                          userId := r.userId, username := r.username,
                          tier := r.tier } }

/-- The return object of the `ENTER_TOKEN` default branch (auth-utils.js
lines 427–441): default tier `"seed"`, no user id. -/
def enterDefaultVerdict (d : DebugInfo) : AuthVerdict :=
  { authenticated := true, tokenAuth := true, referrerAuth := false,
    reason := "ENTER_TOKEN",
    userId := none, username := none, tier := some "seed",
    debugInfo := { d with authResult := some "ENTER_TOKEN",
                          userId := none, username := none,
                          tier := some "seed" } }

/-- The return object of the `DB_TOKEN` branch (auth-utils.js
lines 459–475). -/
def dbTokenVerdict (r : UserValue) (d : DebugInfo) : AuthVerdict :=
  { authenticated := true, tokenAuth := true, referrerAuth := false,
    reason := "DB_TOKEN",
    userId := r.userId, username := r.username, tier := r.tier,
    debugInfo := { d with authResult := some "DB_TOKEN",
                          userId := r.userId, username := r.username,
                          tier := r.tier } }

/-- The return object of the `DB_REFERRER` branch (auth-utils.js
lines 499–516). -/
def dbReferrerVerdict (r : UserValue) (d : DebugInfo) : AuthVerdict :=
  { authenticated := true, tokenAuth := false, referrerAuth := true,
    reason := "DB_REFERRER",
    userId := r.userId, username := r.username, tier := r.tier,
    debugInfo := { d with authResult := some "DB_REFERRER",
                          userId := r.userId, username := r.username,
                          tier := r.tier } }

/-- The terminal no-auth return object (auth-utils.js lines 529–539):
note that `debugInfo.tier` is never assigned on this path. -/
def noAuthVerdict (d : DebugInfo) : AuthVerdict :=
  { authenticated := false, tokenAuth := false, referrerAuth := false,
    reason := "NO_AUTH_METHOD_SUCCESS",
    userId := none, username := none, tier := some "anonymous",
    debugInfo := { d with authResult := some "NONE" } }

/-- Strategy 2️⃣ (referrer) followed by the terminal default, embedding
auth-utils.js lines 484–539. -/
def referrerStrategy (svc : TrustService) (ref : Option String)
    (d : DebugInfo) : AuthVerdict :=
  if truthy ref then
    match checkReferrerInDb svc.parseHost ref svc.referrerFetch with
    | some r => if truthy r.userId then dbReferrerVerdict r d else noAuthVerdict d
    | none => noAuthVerdict d
  else noAuthVerdict d

/-- Strategy 1️⃣ (bearer token) followed by the rest of the cascade,
embedding auth-utils.js lines 449–481. -/
def tokenStrategy (svc : TrustService) (token ref : Option String)
    (d : DebugInfo) : AuthVerdict :=
  if truthy token then
    match validateApiTokenDb token (svc.tokenFetch (token.getD "")) with
    | some r => if truthy r.userId then dbTokenVerdict r d else referrerStrategy svc ref d
    | none => referrerStrategy svc ref d
  else referrerStrategy svc ref d

/-- The `debugInfo` object built at the start of `shouldBypassQueue`
(auth-utils.js lines 384–394), before any strategy runs. -/
def initialDebugInfo (req : Request) : DebugInfo :=
  { token := if truthy req.token then some (maskToken (req.token.getD "")) else none,
    referrer := req.ref,
    tokenSource := if truthy req.token then req.tokenSource else none,
    authResult := none, userId := none, username := none, tier := none }

/-- Embedding of `shouldBypassQueue` (auth-utils.js lines 345–540): the
ordered cascade enter-token → bearer token → referrer → no-auth. Every
trust lookup absorbs its failures into `null`, so the function is total:
it returns a verdict for every input. -/
def shouldBypassQueue (svc : TrustService) (env : Env) (req : Request) : AuthVerdict :=
  let token := req.token
  let ref := req.ref
  let enterToken := extractEnterToken req
  let githubUserId := extractGithubUserId req
  let d : DebugInfo := initialDebugInfo req
  if truthy enterToken then
    if validateEnterToken enterToken env then
      if truthy githubUserId then
        match getUserTierFromGithubId githubUserId
            (svc.githubFetch (githubUserId.getD "")) with
        | some r =>
          if truthy r.userId then enterGithubVerdict r d
          else enterDefaultVerdict d
        | none => enterDefaultVerdict d
      else enterDefaultVerdict d
    else tokenStrategy svc token ref d
  else tokenStrategy svc token ref d

/-- The same request with the elevated-token header deleted (both header
spellings recognised by `extractEnterToken`); all other credentials are
untouched. -/
def removeEnterTokenHeader (req : Request) : Request :=
  { req with
    headers := req.headers.filter
      (fun p => p.1 != "x-enter-token" && p.1 != "X-Enter-Token") }

/-- The error thrown by `handleAuthentication`'s catch branch when the
caught error's `details.debugInfo.authResult` equals `"INVALID_TOKEN"`:
a 401 with message "Invalid authentication token". Other caught errors
are re-thrown unchanged. -/
inductive HandleAuthError (ε : Type) where
  | invalidToken401 : HandleAuthError ε
  | rethrown (e : ε) : HandleAuthError ε
deriving Repr, DecidableEq

/-- An error value as inspected by `handleAuthentication`'s catch branch:
only its `details.debugInfo.authResult` field matters there. -/
structure ThrownError where
  detailsDebugInfoAuthResult : Option String
deriving Repr, DecidableEq

/-- The catch logic of `handleAuthentication` (auth-utils.js
lines 588–611), factored over the outcome of the resolver call. On
success the result is the auth result with `tier` replaced by
`debugInfo.tier || "anonymous"` (lines 583–587). -/
def handleAuthenticationWith
    (resolved : Except ThrownError AuthVerdict) :
    Except (HandleAuthError ThrownError) AuthVerdict :=
  match resolved with
  | .ok authResult =>
    .ok { authResult with tier := some (jsOrStr authResult.debugInfo.tier "anonymous") }
  | .error e =>
    if e.detailsDebugInfoAuthResult == some "INVALID_TOKEN" then
      .error .invalidToken401
    else
      .error (.rethrown e)

/-- Embedding of `shouldBypassQueue` as the resolver seen by
`handleAuthentication`'s try block: the source function contains no
`throw` statement and every awaited lookup absorbs its failures into
`null`, so its faithful embedding always yields a normal result. -/
def shouldBypassQueueE (svc : TrustService) (env : Env) (req : Request) :
    Except ThrownError AuthVerdict :=
  .ok (shouldBypassQueue svc env req)

/-- Embedding of `handleAuthentication` (auth-utils.js lines 555–612). -/
def handleAuthentication (svc : TrustService) (env : Env) (req : Request) :
    Except (HandleAuthError ThrownError) AuthVerdict :=
  handleAuthenticationWith (shouldBypassQueueE svc env req)

/-- One entry of `availableModels` as consumed by the tier gate in
`handleTextGeneration` (index.ts lines 237–256). -/
structure Model where
  name : String
  aliases : List String
  tier : String
deriving Repr, DecidableEq

/-- The registry search of index.ts lines 237–239:
`availableModels.find(m => m.name === requested || m.aliases?.includes(requested))`. -/
def findModel (models : List Model) (requested : String) : Option Model :=
  models.find? (fun m => m.name == requested || m.aliases.contains requested)

/-- Modelled from the spec: `hasSufficientTier` is imported from
`shared/tier-gating.js`, which is not among the embedded sources; the
spec defines the tier order `anonymous < seed < flower < nectar < admin`
as a total order. Rank of a tier label in that order (labels outside the
enumeration rank lowest). -/
def tierLevel : String → Nat
  | "admin" => 4
  | "nectar" => 3
  | "flower" => 2
  | "seed" => 1
  | "anonymous" => 0
  | _ => 0

/-- Modelled from the spec: `canAccess(identityTier, resourceMinTier)` is
true iff the identity's tier is at least the resource's minimum tier in
the total tier order. -/
def hasSufficientTier (userTier requiredTier : String) : Bool :=
  tierLevel requiredTier ≤ tierLevel userTier

/-- Outcome of the tier gate of `handleTextGeneration`: admission, a 402
rejection carrying a message, or a 404 for an unregistered model. -/
inductive GateOutcome where
  | allow : GateOutcome
  | tierDenied (status : Nat) (message : String) : GateOutcome
  | notFound (status : Nat) (message : String) : GateOutcome
deriving Repr, DecidableEq

/-- The 402 message of index.ts lines 244–246, naming the caller's tier,
the required tier, and where to obtain a higher tier. -/
def tierDeniedMessage (currentTier requiredTier : String) : String :=
  "Model not found or tier not high enough. Your tier: " ++ currentTier ++
  ", required tier: " ++ requiredTier ++
  ". To get a token or add a referrer, visit https://auth.pollinations.ai"

/-- Embedding of the tier-gating block of `handleTextGeneration`
(index.ts lines 236–256): look the requested model up in the registry;
if found, admit iff `hasSufficientTier(authTier, model.tier)` and
otherwise reject with 402 and the explanatory message; if not found,
reject with 404. -/
def tierGate (models : List Model) (authTier : String) (requested : String) :
    GateOutcome :=
  match findModel models requested with
  | some model =>
    if hasSufficientTier authTier model.tier then .allow
    else .tierDenied 402 (tierDeniedMessage authTier model.tier)
  | none => .notFound 404 ("Model not found: " ++ requested)

/-- Embedding of the queue configuration of `handleTextGeneration`
(index.ts lines 349–355): default interval 6000 ms, overridden to
1000 ms for token-authenticated verdicts and 3000 ms for
referrer-authenticated verdicts. -/
def queueInterval (authResult : AuthVerdict) : Nat :=
  if authResult.tokenAuth then 1000
  else if authResult.referrerAuth then 3000
  else 6000

/-- The memoization TTL configured for all three trust lookups
(auth-utils.js lines 112–115, 187–190, 333–336): `maxAge: 30000`. -/
def cacheTTL : Nat := 30000

/-- Modelled from the spec: the TTL cache wrapping each trust lookup is
provided by the external `memoizee` library (configured in the source
with `maxAge: 30000, promise: true` but itself not among the embedded
sources). State: completed entries (key, cached value — negative results
included — and insertion time) plus the set of keys with an outstanding
remote call. -/
structure Cache (V : Type) where
  entries : List (String × Option V × Nat)
  inflight : List String

/-- Modelled from the spec: the cold-start cache state (no entries, no
in-flight calls). -/
def Cache.empty (V : Type) : Cache V := { entries := [], inflight := [] }

/-- Modelled from the spec: a completed entry answers lookups for
`cacheTTL` milliseconds after its insertion. -/
def Cache.freshEntry (c : Cache V) (key : String) (now : Nat) :
    Option (Option V) :=
  match c.entries.find? (fun e => e.1 == key && now < e.2.2 + cacheTTL) with
  | some e => some e.2.1
  | none => none

/-- Modelled from the spec: what starting a lookup does — answer from a
fresh entry, join an in-flight remote call for the same key, or issue a
new remote call. -/
inductive LookupAction (V : Type) where
  | hit (v : Option V) : LookupAction V
  | joined : LookupAction V
  | remoteCall : LookupAction V
deriving Repr, DecidableEq

/-- Modelled from the spec: beginning a lookup for `key` at time `now`.
A fresh entry (positive or negative) answers immediately; otherwise a
lookup already in flight for the same key is joined; only otherwise is a
remote call issued and the key marked in flight. -/
def Cache.beginLookup (c : Cache V) (key : String) (now : Nat) :
    Cache V × LookupAction V :=
  match c.freshEntry key now with
  | some v => (c, .hit v)
  | none =>
    if c.inflight.contains key then (c, .joined)
    else ({ c with inflight := key :: c.inflight }, .remoteCall)

/-- Modelled from the spec: completion of the remote call for `key` at
time `now` with result `v` (possibly negative). The key leaves the
in-flight set, the result is stored with its insertion time, and `v` is
the single value fanned out to every caller that joined the call. -/
def Cache.completeRemote (c : Cache V) (key : String) (v : Option V)
    (now : Nat) : Cache V × Option V :=
  ({ entries := (key, v, now) :: c.entries,
     inflight := c.inflight.filter (fun k => k != key) }, v)

/-! Concrete fixtures used by the witness theorems. -/

/-- A concrete trust-service behaviour: bearer token "tok1" is valid for
user "u2"; domain "example.com" is registered to user "u3" (bob) at tier
"seed"; the upstream-id lookup finds user "u1" (alice) at tier "flower";
the URL parser recognises exactly "https://example.com/page". -/
def svcW : TrustService :=
  { tokenFetch := fun t =>
      if t == "tok1" then
        .response 200 (some { valid := true, userId := some "u2",
                              username := none, tier := none })
      else
        .response 200 (some { valid := false, userId := none,
                              username := none, tier := none }),
    referrerFetch := fun d =>
      if d == "example.com" then
        .response 200 (some { valid := true, user_id := some "u3",
                              username := some "bob", tier := some "seed" })
      else .response 404 none,
    githubFetch := fun _ =>
      .response 200 (some { user := some { github_user_id := some "u1",
                                           username := some "alice" },
                            userTier := some { tier := some "flower" } }),
    parseHost := fun s =>
      if s == "https://example.com/page" then some "example.com" else none }

/-- Environment fixture with the elevated-token secret set to "VALID". -/
def envW : Env := { ENTER_TOKEN := some "VALID" }

/-- Environment fixture with no elevated-token secret configured. -/
def envUnsetW : Env := { ENTER_TOKEN := none }

/-- Request fixture: valid elevated token plus upstream id "u1". -/
def reqEnterW : Request :=
  { headers := [("x-enter-token", "VALID"), ("x-github-id", "u1")],
    token := none, ref := none, tokenSource := none }

/-- Request fixture: valid elevated token and no upstream id. -/
def reqEnterOnlyW : Request :=
  { headers := [("x-enter-token", "VALID")],
    token := none, ref := none, tokenSource := none }

/-- Request fixture: invalid elevated token alongside a valid bearer
token. -/
def reqEnterBadW : Request :=
  { headers := [("x-enter-token", "WRONG")],
    token := some "tok1", ref := none, tokenSource := some "header" }

/-- Request fixture: valid elevated token alongside a valid bearer
token. -/
def reqBothW : Request :=
  { headers := [("x-enter-token", "VALID")],
    token := some "tok1", ref := none, tokenSource := some "header" }

/-- Request fixture: valid bearer token only. -/
def reqTokW : Request :=
  { headers := [], token := some "tok1", ref := none,
    tokenSource := some "header" }

/-- Request fixture: unrecognized bearer token only. -/
def reqBadW : Request :=
  { headers := [], token := some "badtoken", ref := none,
    tokenSource := some "header" }

/-- Request fixture: registered referrer only. -/
def reqRefW : Request :=
  { headers := [], token := none, ref := some "https://example.com/page",
    tokenSource := none }

/-- Request fixture: no credential at all. -/
def reqNoneW : Request :=
  { headers := [], token := none, ref := none, tokenSource := none }

/-! Helper lemmas shared by several claim theorems. -/

/-- A successful token lookup always carries a truthy user id (the
source guards on `data.userId` before building the result). -/
theorem validateApiTokenDb_userId {token : Option String}
    {resp : FetchOutcome TokenResponse} {r : UserValue}
    (h : validateApiTokenDb token resp = some r) : truthy r.userId = true := by
  unfold validateApiTokenDb at h
  split at h
  · exact absurd h (by simp)
  · split at h
    · exact absurd h (by simp)
    · split at h
      · split at h
        · exact absurd h (by simp)
        · split at h
          · obtain ⟨hv, hu⟩ := Bool.and_eq_true .. |>.mp (by assumption)
            cases h
            exact hu
          · exact absurd h (by simp)
      · exact absurd h (by simp)

/-- A successful referrer lookup always carries a truthy user id (the
source guards on `data.user_id`). -/
theorem checkReferrerInDb_userId {parseHost : String → Option String}
    {referrer : Option String}
    {fetchFor : String → FetchOutcome ReferrerResponse} {r : UserValue}
    (h : checkReferrerInDb parseHost referrer fetchFor = some r) :
    truthy r.userId = true := by
  unfold checkReferrerInDb at h
  split at h
  · exact absurd h (by simp)
  · dsimp only at h
    split at h
    · exact absurd h (by simp)
    · split at h
      · split at h
        · exact absurd h (by simp)
        · split at h
          · obtain ⟨hv, hu⟩ := Bool.and_eq_true .. |>.mp (by assumption)
            cases h
            exact hu
          · exact absurd h (by simp)
      · exact absurd h (by simp)

/-- Removing the elevated-token header removes the extracted elevated
token. -/
theorem extractEnterToken_removeEnterTokenHeader (req : Request) :
    extractEnterToken (removeEnterTokenHeader req) = none := by
  have hfind : ∀ name : String, name = "x-enter-token" ∨ name = "X-Enter-Token" →
      (removeEnterTokenHeader req).header name = none := by
    intro name hn
    unfold Request.header removeEnterTokenHeader
    have : (req.headers.filter
        (fun p => p.1 != "x-enter-token" && p.1 != "X-Enter-Token")).find?
        (fun p => p.1 == name) = none := by
      apply List.find?_eq_none.mpr
      intro x hx
      have hmem := (List.mem_filter.mp hx).2
      simp only [Bool.and_eq_true, bne_iff_ne, ne_eq] at hmem
      simp only [beq_iff_eq]
      rcases hn with hn | hn <;> subst hn
      · exact hmem.1
      · exact hmem.2
    simp [this]
  unfold extractEnterToken
  rw [hfind "x-enter-token" (Or.inl rfl), hfind "X-Enter-Token" (Or.inr rfl)]
  rfl

/-- Removing the elevated-token header leaves the other credentials and
the initial debug record untouched, so an elevated token that fails
validation makes the cascade produce exactly the verdict of the stripped
request. -/
theorem invalidEnter_fallthrough (svc : TrustService) (env : Env)
    (req : Request)
    (hbad : validateEnterToken (extractEnterToken req) env = false) :
    shouldBypassQueue svc env req =
      shouldBypassQueue svc env (removeEnterTokenHeader req) := by
  have hr : shouldBypassQueue svc env (removeEnterTokenHeader req) =
      tokenStrategy svc req.token req.ref (initialDebugInfo req) := by
    unfold shouldBypassQueue
    rw [extractEnterToken_removeEnterTokenHeader]
    rfl
  rw [hr]
  unfold shouldBypassQueue
  cases he : truthy (extractEnterToken req) with
  | false => simp [he]
  | true => simp [he, hbad]

/-- Claim C1: with a valid elevated token, a resolvable upstream id
yields the authenticated `ENTER_TOKEN_WITH_GITHUB` verdict carrying
exactly the identity the upstream-id lookup returned, while an absent or
unresolvable upstream id yields the authenticated `ENTER_TOKEN` verdict
with no user id and the default low-privileged tier `"seed"`. -/
theorem elevated_token_resolution (svc : TrustService) (env : Env)
    (req : Request)
    (hev : truthy (extractEnterToken req) = true)
    (hvalid : validateEnterToken (extractEnterToken req) env = true) :
    (∀ r : UserValue,
      getUserTierFromGithubId (extractGithubUserId req)
        (svc.githubFetch ((extractGithubUserId req).getD "")) = some r →
      truthy r.userId = true →
      (shouldBypassQueue svc env req).authenticated = true ∧
      (shouldBypassQueue svc env req).reason = "ENTER_TOKEN_WITH_GITHUB" ∧
      (shouldBypassQueue svc env req).userId = r.userId ∧
      (shouldBypassQueue svc env req).username = r.username ∧
      (shouldBypassQueue svc env req).tier = r.tier) ∧
    ((∀ r : UserValue,
      getUserTierFromGithubId (extractGithubUserId req)
        (svc.githubFetch ((extractGithubUserId req).getD "")) = some r →
      truthy r.userId = false) →
      (shouldBypassQueue svc env req).authenticated = true ∧
      (shouldBypassQueue svc env req).reason = "ENTER_TOKEN" ∧
      (shouldBypassQueue svc env req).userId = none ∧
      (shouldBypassQueue svc env req).tier = some "seed") := by
  unfold shouldBypassQueue
  simp only [hev, hvalid, if_true]
  constructor
  · intro r hr htr
    have hgid : truthy (extractGithubUserId req) = true := by
      by_contra hfalse
      have : getUserTierFromGithubId (extractGithubUserId req)
          (svc.githubFetch ((extractGithubUserId req).getD "")) = none := by
        unfold getUserTierFromGithubId
        simp [Bool.eq_false_iff.mpr hfalse]
      rw [this] at hr
      cases hr
    simp only [hgid, if_true, hr, htr]
    exact ⟨rfl, rfl, rfl, rfl, rfl⟩
  · intro hnone
    cases hgid : truthy (extractGithubUserId req) with
    | false => simp [hgid, enterDefaultVerdict]
    | true =>
      simp only [hgid, if_true]
      cases hlk : getUserTierFromGithubId (extractGithubUserId req)
          (svc.githubFetch ((extractGithubUserId req).getD "")) with
      | none => simp [enterDefaultVerdict]
      | some r =>
        have := hnone r hlk
        simp [this, enterDefaultVerdict]

/-- Witness for C1: the end-to-end scenario with elevated token "VALID"
and upstream id "u1" resolved to alice/flower, and the default-tier
variant without an upstream id. -/
theorem elevated_token_resolution_witness :
    (shouldBypassQueue svcW envW reqEnterW).reason = "ENTER_TOKEN_WITH_GITHUB" ∧
    (shouldBypassQueue svcW envW reqEnterW).userId = some "u1" ∧
    (shouldBypassQueue svcW envW reqEnterW).tier = some "flower" ∧
    (shouldBypassQueue svcW envW reqEnterOnlyW).reason = "ENTER_TOKEN" ∧
    (shouldBypassQueue svcW envW reqEnterOnlyW).tier = some "seed" := by
  have h1 := elevated_token_resolution svcW envW reqEnterW (by decide) (by decide)
  have h2 := elevated_token_resolution svcW envW reqEnterOnlyW (by decide) (by decide)
  obtain ⟨-, hb, hc, -, hd⟩ :=
    h1.1 { userId := some "u1", username := some "alice", tier := some "flower" }
      rfl (by decide)
  obtain ⟨-, he, -, hf⟩ := h2.2 (by
    intro r hr
    rw [show getUserTierFromGithubId (extractGithubUserId reqEnterOnlyW)
        (svcW.githubFetch ((extractGithubUserId reqEnterOnlyW).getD "")) = none
      from rfl] at hr
    exact Option.noConfusion hr)
  exact ⟨hb, hc, hd, he, hf⟩

/-- Claim C2: a validated bearer token with no elevated token resolves to
the `DB_TOKEN` verdict carrying the identity the token lookup returned,
and a valid elevated token always takes priority over a valid bearer
token (the verdict's reason is one of the two elevated variants). -/
theorem bearer_token_and_priority (svc : TrustService) (env : Env)
    (req : Request) :
    (∀ r : UserValue,
      truthy (extractEnterToken req) = false →
      validateApiTokenDb req.token (svc.tokenFetch (req.token.getD "")) = some r →
      (shouldBypassQueue svc env req).authenticated = true ∧
      (shouldBypassQueue svc env req).reason = "DB_TOKEN" ∧
      (shouldBypassQueue svc env req).userId = r.userId ∧
      (shouldBypassQueue svc env req).username = r.username ∧
      (shouldBypassQueue svc env req).tier = r.tier) ∧
    (∀ r : UserValue,
      validateEnterToken (extractEnterToken req) env = true →
      validateApiTokenDb req.token (svc.tokenFetch (req.token.getD "")) = some r →
      (shouldBypassQueue svc env req).reason = "ENTER_TOKEN" ∨
      (shouldBypassQueue svc env req).reason = "ENTER_TOKEN_WITH_GITHUB") := by
  constructor
  · intro r hne hlk
    have htok : truthy req.token = true := by
      by_contra hfalse
      unfold validateApiTokenDb at hlk
      simp [Bool.eq_false_iff.mpr hfalse] at hlk
    have huid := validateApiTokenDb_userId hlk
    unfold shouldBypassQueue
    simp only [hne, Bool.false_eq_true, if_false]
    unfold tokenStrategy
    simp only [htok, if_true, hlk, huid]
    exact ⟨rfl, rfl, rfl, rfl, rfl⟩
  · intro r hvalid hlk
    have hev : truthy (extractEnterToken req) = true := by
      by_contra hfalse
      unfold validateEnterToken at hvalid
      simp [Bool.eq_false_iff.mpr hfalse] at hvalid
    unfold shouldBypassQueue
    simp only [hev, hvalid, if_true]
    cases hgid : truthy (extractGithubUserId req) with
    | false => simp [hgid, enterDefaultVerdict]
    | true =>
      cases hlk2 : getUserTierFromGithubId (extractGithubUserId req)
          (svc.githubFetch ((extractGithubUserId req).getD "")) with
      | none => simp [hgid, hlk2, enterDefaultVerdict]
      | some r2 =>
        cases htr : truthy r2.userId with
        | false => simp [hgid, hlk2, htr, enterDefaultVerdict]
        | true => simp [hgid, hlk2, htr, enterGithubVerdict]

/-- Witness for C2: bearer token "tok1" alone resolves via DB_TOKEN; with
elevated token "VALID" also present, resolution takes the elevated
path. -/
theorem bearer_token_and_priority_witness :
    (shouldBypassQueue svcW envW reqTokW).reason = "DB_TOKEN" ∧
    (shouldBypassQueue svcW envW reqTokW).userId = some "u2" ∧
    ((shouldBypassQueue svcW envW reqBothW).reason = "ENTER_TOKEN" ∨
     (shouldBypassQueue svcW envW reqBothW).reason = "ENTER_TOKEN_WITH_GITHUB") := by
  have h1 := bearer_token_and_priority svcW envW reqTokW
  have h2 := bearer_token_and_priority svcW envW reqBothW
  obtain ⟨-, ha, hb, -, -⟩ :=
    h1.1 { userId := some "u2", username := some "u2", tier := some "seed" }
      (by decide) rfl
  exact ⟨ha, hb,
    h2.2 { userId := some "u2", username := some "u2", tier := some "seed" }
      (by decide) rfl⟩

/-- Claim C3: an elevated token that fails validation has no effect on
the resolution — the verdict is identical to the one for the same
request with the elevated-token header removed. -/
theorem invalid_elevated_token_no_effect (svc : TrustService) (env : Env)
    (req : Request)
    (_hev : truthy (extractEnterToken req) = true)
    (hbad : validateEnterToken (extractEnterToken req) env = false) :
    shouldBypassQueue svc env req =
      shouldBypassQueue svc env (removeEnterTokenHeader req) :=
  invalidEnter_fallthrough svc env req hbad

/-- Witness for C3: elevated token "WRONG" against secret "VALID", next
to a valid bearer token; the verdict equals the stripped request's. -/
theorem invalid_elevated_token_no_effect_witness :
    truthy (extractEnterToken reqEnterBadW) = true ∧
    validateEnterToken (extractEnterToken reqEnterBadW) envW = false ∧
    shouldBypassQueue svcW envW reqEnterBadW =
      shouldBypassQueue svcW envW (removeEnterTokenHeader reqEnterBadW) :=
  ⟨by decide, by decide,
   invalid_elevated_token_no_effect svcW envW reqEnterBadW (by decide) (by decide)⟩

/-- Claim C4: every trust lookup turns a thrown fetch, a non-2xx
response or a malformed payload into `null` instead of an error, and a
request whose only credential is an unrecognized bearer token resolves
normally to the terminal unauthenticated verdict (method NONE, tier
anonymous). -/
theorem trust_lookup_failures_absorbed :
    (∀ (token : Option String) (resp : FetchOutcome TokenResponse),
      resp.failed = true → validateApiTokenDb token resp = none) ∧
    (∀ (ph : String → Option String) (referrer : Option String)
      (fetchFor : String → FetchOutcome ReferrerResponse),
      (fetchFor (referrerDomain ph (referrer.getD ""))).failed = true →
      checkReferrerInDb ph referrer fetchFor = none) ∧
    (∀ (gid : Option String) (resp : FetchOutcome UserInfoResponse),
      resp.failed = true → getUserTierFromGithubId gid resp = none) ∧
    (∀ (svc : TrustService) (env : Env) (req : Request),
      truthy (extractEnterToken req) = false →
      truthy req.ref = false →
      validateApiTokenDb req.token (svc.tokenFetch (req.token.getD "")) = none →
      (shouldBypassQueue svc env req).authenticated = false ∧
      (shouldBypassQueue svc env req).reason = "NO_AUTH_METHOD_SUCCESS" ∧
      (shouldBypassQueue svc env req).tier = some "anonymous") := by
  refine ⟨?_, ?_, ?_, ?_⟩
  · intro token resp hf
    unfold validateApiTokenDb
    cases resp with
    | exception => split <;> rfl
    | response status body =>
      simp only [FetchOutcome.failed, Bool.or_eq_true, Bool.not_eq_true'] at hf
      split
      · rfl
      · rcases hf with hf | hf
        · simp [hf]
        · cases body with
          | none => simp
          | some data => simp [Option.isNone] at hf
  · intro ph referrer fetchFor hf
    unfold checkReferrerInDb
    split
    · rfl
    · dsimp only
      cases hresp : fetchFor (referrerDomain ph (referrer.getD "")) with
      | exception => rfl
      | response status body =>
        rw [hresp] at hf
        simp only [FetchOutcome.failed, Bool.or_eq_true, Bool.not_eq_true'] at hf
        rcases hf with hf | hf
        · simp [hf]
        · cases body with
          | none => simp
          | some data => simp [Option.isNone] at hf
  · intro gid resp hf
    unfold getUserTierFromGithubId
    cases resp with
    | exception => split <;> rfl
    | response status body =>
      simp only [FetchOutcome.failed, Bool.or_eq_true, Bool.not_eq_true'] at hf
      split
      · rfl
      · rcases hf with hf | hf
        · simp [hf]
        · cases body with
          | none => simp
          | some data => simp [Option.isNone] at hf
  · intro svc env req hne href htok
    unfold shouldBypassQueue
    simp only [hne, Bool.false_eq_true, if_false]
    unfold tokenStrategy
    cases ht : truthy req.token with
    | false => simp [ht, referrerStrategy, href, noAuthVerdict]
    | true => simp [ht, htok, referrerStrategy, href, noAuthVerdict]

/-- Witness for C4: a thrown fetch, a 500, a malformed 200 and the
end-to-end unrecognized-bearer scenario. -/
theorem trust_lookup_failures_absorbed_witness :
    validateApiTokenDb (some "t") FetchOutcome.exception = none ∧
    validateApiTokenDb (some "t") (FetchOutcome.response 500 none) = none ∧
    getUserTierFromGithubId (some "u") (FetchOutcome.response 200 none) = none ∧
    (shouldBypassQueue svcW envW reqBadW).authenticated = false ∧
    (shouldBypassQueue svcW envW reqBadW).reason = "NO_AUTH_METHOD_SUCCESS" ∧
    (shouldBypassQueue svcW envW reqBadW).tier = some "anonymous" := by
  have h := trust_lookup_failures_absorbed
  obtain ⟨ha, hb, hc⟩ := h.2.2.2 svcW envW reqBadW (by decide) (by decide) rfl
  exact ⟨h.1 (some "t") FetchOutcome.exception (by decide),
         h.1 (some "t") (FetchOutcome.response 500 none) (by decide),
         h.2.2.1 (some "u") (FetchOutcome.response 200 none) (by decide),
         ha, hb, hc⟩

/-- Claim C6: the referrer is normalised to a bare hostname before the
domain lookup — with a scheme the parsed hostname is used, on a URL
parse failure the raw referrer string is the fallback domain literal —
the lookup consults only the normalised domain, and a referrer the trust
service reports registered yields the authenticated REFERRER verdict
with exactly the identity and tier the service reported. -/
theorem referrer_resolution (svc : TrustService) (env : Env) (req : Request) :
    (∀ (ph : String → Option String) (r h : String),
      (strStartsWith r "http://" = true ∨ strStartsWith r "https://" = true) →
      ph r = some h → referrerDomain ph r = h) ∧
    (∀ (ph : String → Option String) (r : String),
      (strStartsWith r "http://" = true ∨ strStartsWith r "https://" = true) →
      ph r = none → referrerDomain ph r = r) ∧
    (∀ (ph : String → Option String) (ref : Option String)
      (f1 f2 : String → FetchOutcome ReferrerResponse),
      f1 (referrerDomain ph (ref.getD "")) = f2 (referrerDomain ph (ref.getD "")) →
      checkReferrerInDb ph ref f1 = checkReferrerInDb ph ref f2) ∧
    (truthy (extractEnterToken req) = false →
     truthy req.token = false →
     ∀ rv : UserValue,
      checkReferrerInDb svc.parseHost req.ref svc.referrerFetch = some rv →
      (shouldBypassQueue svc env req).authenticated = true ∧
      (shouldBypassQueue svc env req).reason = "DB_REFERRER" ∧
      (shouldBypassQueue svc env req).userId = rv.userId ∧
      (shouldBypassQueue svc env req).username = rv.username ∧
      (shouldBypassQueue svc env req).tier = rv.tier) := by
  refine ⟨?_, ?_, ?_, ?_⟩
  · intro ph r h hor hp
    unfold referrerDomain
    rcases hor with hor | hor <;> simp [hor, hp]
  · intro ph r hor hp
    unfold referrerDomain
    rcases hor with hor | hor <;> simp [hor, hp]
  · intro ph ref f1 f2 heq
    unfold checkReferrerInDb
    cases htr : truthy ref with
    | false => simp [htr]
    | true =>
      simp only [htr]
      rw [heq]
  · intro hne hnt rv hlk
    have href : truthy req.ref = true := by
      by_contra hfalse
      unfold checkReferrerInDb at hlk
      simp [Bool.eq_false_iff.mpr hfalse] at hlk
    have huid := checkReferrerInDb_userId hlk
    unfold shouldBypassQueue
    simp only [hne, Bool.false_eq_true, if_false]
    unfold tokenStrategy
    simp only [hnt, Bool.false_eq_true, if_false]
    unfold referrerStrategy
    simp only [href, if_true, hlk, huid]
    exact ⟨rfl, rfl, rfl, rfl, rfl⟩

/-- Witness for C6: the end-to-end scenario — referrer
https://example.com/page is normalised to example.com, registered at
tier seed, and yields the REFERRER verdict at exactly that tier. -/
theorem referrer_resolution_witness :
    referrerDomain svcW.parseHost "https://example.com/page" = "example.com" ∧
    (shouldBypassQueue svcW envW reqRefW).authenticated = true ∧
    (shouldBypassQueue svcW envW reqRefW).reason = "DB_REFERRER" ∧
    (shouldBypassQueue svcW envW reqRefW).tier = some "seed" := by
  have h := referrer_resolution svcW envW reqRefW
  obtain ⟨ha, hb, -, -, hc⟩ := h.2.2.2 (by decide) (by decide)
    { userId := some "u3", username := some "bob", tier := some "seed" } (by decide)
  exact ⟨h.1 svcW.parseHost "https://example.com/page" "example.com"
    (Or.inr (by decide)) (by decide), ha, hb, hc⟩

/-- Claim C5: for a registered model the gate admits exactly when the
caller's tier reaches the model's minimum tier in the total tier order;
a denial is the 402 outcome whose message carries the current tier, the
required tier and the pointer to obtaining a higher tier; an
unregistered model yields the distinct 404 outcome and never admission
or a tier denial. -/
theorem tier_gate_correct (models : List Model) (authTier requested : String) :
    (∀ m : Model, findModel models requested = some m →
      ((tierGate models authTier requested = GateOutcome.allow) ↔
        tierLevel m.tier ≤ tierLevel authTier) ∧
      (tierLevel authTier < tierLevel m.tier →
        tierGate models authTier requested =
          GateOutcome.tierDenied 402
            ("Model not found or tier not high enough. Your tier: " ++
             authTier ++ ", required tier: " ++ m.tier ++
             ". To get a token or add a referrer, visit https://auth.pollinations.ai"))) ∧
    (findModel models requested = none →
      tierGate models authTier requested =
        GateOutcome.notFound 404 ("Model not found: " ++ requested) ∧
      tierGate models authTier requested ≠ GateOutcome.allow ∧
      ∀ (s : Nat) (msg : String),
        tierGate models authTier requested ≠ GateOutcome.tierDenied s msg) := by
  constructor
  · intro m hm
    unfold tierGate
    rw [hm]
    unfold hasSufficientTier
    constructor
    · constructor
      · intro hadmit
        by_contra hlt
        simp [decide_eq_true_eq, hlt] at hadmit
      · intro hle
        simp [hle]
    · intro hlt
      have : ¬ tierLevel m.tier ≤ tierLevel authTier := by omega
      simp [this, tierDeniedMessage]
  · intro hnone
    unfold tierGate
    rw [hnone]
    exact ⟨rfl, by simp, by simp⟩

/-- Witness for C5: tier "anonymous" is denied a "seed" model with the
explanatory 402, tier "flower" is admitted, and an unknown model gets
the 404 outcome. -/
theorem tier_gate_correct_witness :
    tierGate [{ name := "openai", aliases := [], tier := "seed" }] "flower" "openai" =
      GateOutcome.allow ∧
    tierGate [{ name := "openai", aliases := [], tier := "seed" }] "anonymous" "openai" =
      GateOutcome.tierDenied 402
        ("Model not found or tier not high enough. Your tier: " ++
         "anonymous" ++ ", required tier: " ++ "seed" ++
         ". To get a token or add a referrer, visit https://auth.pollinations.ai") ∧
    tierGate [{ name := "openai", aliases := [], tier := "seed" }] "flower" "mystery" =
      GateOutcome.notFound 404 ("Model not found: " ++ "mystery") := by
  have h1 := tier_gate_correct [{ name := "openai", aliases := [], tier := "seed" }]
    "flower" "openai"
  have h2 := tier_gate_correct [{ name := "openai", aliases := [], tier := "seed" }]
    "anonymous" "openai"
  have h3 := tier_gate_correct [{ name := "openai", aliases := [], tier := "seed" }]
    "flower" "mystery"
  refine ⟨?_, ?_, ?_⟩
  · exact ((h1.1 { name := "openai", aliases := [], tier := "seed" } rfl).1).mpr
      (by decide)
  · exact (h2.1 { name := "openai", aliases := [], tier := "seed" } rfl).2 (by decide)
  · exact (h3.2 rfl).1

/-- Every verdict of the cascade is one of the five return objects of
the source, each built over the initial debug record. -/
theorem shouldBypassQueue_shape (svc : TrustService) (env : Env) (req : Request) :
    (∃ r, shouldBypassQueue svc env req = enterGithubVerdict r (initialDebugInfo req)) ∨
    shouldBypassQueue svc env req = enterDefaultVerdict (initialDebugInfo req) ∨
    (∃ r, shouldBypassQueue svc env req = dbTokenVerdict r (initialDebugInfo req)) ∨
    (∃ r, shouldBypassQueue svc env req = dbReferrerVerdict r (initialDebugInfo req)) ∨
    shouldBypassQueue svc env req = noAuthVerdict (initialDebugInfo req) := by
  simp only [shouldBypassQueue, tokenStrategy, referrerStrategy]
  repeat' split
  all_goals first
    | exact Or.inl ⟨_, rfl⟩
    | exact Or.inr (Or.inl rfl)
    | exact Or.inr (Or.inr (Or.inl ⟨_, rfl⟩))
    | exact Or.inr (Or.inr (Or.inr (Or.inl ⟨_, rfl⟩)))
    | exact Or.inr (Or.inr (Or.inr (Or.inr rfl)))

/-- Claim C7: the admission interval is a deterministic function of the
verdict's authentication method, with token-authenticated and both
elevated-token verdicts getting 1000 ms, referrer-authenticated verdicts
3000 ms, unauthenticated verdicts 6000 ms, and the three intervals
strictly ordered. -/
theorem admission_interval_by_method (svc : TrustService) (env : Env)
    (req : Request) :
    (((shouldBypassQueue svc env req).reason = "DB_TOKEN" ∨
      (shouldBypassQueue svc env req).reason = "ENTER_TOKEN" ∨
      (shouldBypassQueue svc env req).reason = "ENTER_TOKEN_WITH_GITHUB") →
      queueInterval (shouldBypassQueue svc env req) = 1000) ∧
    ((shouldBypassQueue svc env req).reason = "DB_REFERRER" →
      queueInterval (shouldBypassQueue svc env req) = 3000) ∧
    ((shouldBypassQueue svc env req).reason = "NO_AUTH_METHOD_SUCCESS" →
      queueInterval (shouldBypassQueue svc env req) = 6000) ∧
    (1000 : Nat) < 3000 ∧ (3000 : Nat) < 6000 := by
  rcases shouldBypassQueue_shape svc env req with ⟨r, h⟩ | h | ⟨r, h⟩ | ⟨r, h⟩ | h <;> rw [h]
  · refine ⟨fun _ => by simp [queueInterval, enterGithubVerdict],
      fun hr => ?_, fun hr => ?_, by norm_num, by norm_num⟩ <;>
      simp [enterGithubVerdict] at hr
  · refine ⟨fun _ => by simp [queueInterval, enterDefaultVerdict],
      fun hr => ?_, fun hr => ?_, by norm_num, by norm_num⟩ <;>
      simp [enterDefaultVerdict] at hr
  · refine ⟨fun _ => by simp [queueInterval, dbTokenVerdict],
      fun hr => ?_, fun hr => ?_, by norm_num, by norm_num⟩ <;>
      simp [dbTokenVerdict] at hr
  · refine ⟨fun hr => ?_, fun _ => by simp [queueInterval, dbReferrerVerdict],
      fun hr => ?_, by norm_num, by norm_num⟩ <;>
      simp [dbReferrerVerdict] at hr
  · refine ⟨fun hr => ?_, fun hr => ?_,
      fun _ => by simp [queueInterval, noAuthVerdict], by norm_num, by norm_num⟩ <;>
      simp [noAuthVerdict] at hr

/-- Witness for C7: the four concrete verdicts of the fixture service
receive 1000, 1000, 3000 and 6000 ms respectively. -/
theorem admission_interval_by_method_witness :
    queueInterval (shouldBypassQueue svcW envW reqTokW) = 1000 ∧
    queueInterval (shouldBypassQueue svcW envW reqEnterOnlyW) = 1000 ∧
    queueInterval (shouldBypassQueue svcW envW reqRefW) = 3000 ∧
    queueInterval (shouldBypassQueue svcW envW reqNoneW) = 6000 :=
  ⟨(admission_interval_by_method svcW envW reqTokW).1 (Or.inl (by decide)),
   (admission_interval_by_method svcW envW reqEnterOnlyW).1 (Or.inr (Or.inl (by decide))),
   (admission_interval_by_method svcW envW reqRefW).2.1 (by decide),
   (admission_interval_by_method svcW envW reqNoneW).2.2.1 (by decide)⟩

/-- A key with no fresh cache entry at one time has none at any later
time either (entries only age). -/
theorem freshEntry_none_mono {V : Type} (c : Cache V) (k : String)
    {t1 t2 : Nat} (h12 : t1 ≤ t2) (h : c.freshEntry k t1 = none) :
    c.freshEntry k t2 = none := by
  unfold Cache.freshEntry at h ⊢
  cases hf1 : c.entries.find? (fun e => e.1 == k && decide (t1 < e.2.2 + cacheTTL)) with
  | some e1 =>
    rw [hf1] at h
    exact absurd h (by simp)
  | none =>
    have hall := List.find?_eq_none.mp hf1
    cases hf2 : c.entries.find? (fun e => e.1 == k && decide (t2 < e.2.2 + cacheTTL)) with
    | none => rfl
    | some e =>
      exfalso
      have hpred := List.find?_some hf2
      have hmem := List.mem_of_find?_eq_some hf2
      have hfail := hall e hmem
      simp only [Bool.and_eq_true, decide_eq_true_eq, not_and] at hpred hfail
      exact hfail hpred.1 (by omega)

/-- Claim C8 (spec-modelled): every completed lookup result, negative
results included, answers lookups for the same key for the full 30-second
TTL without a new remote call; and a lookup beginning while a remote call
for the same key is in flight joins it rather than issuing a second
call, with the single completed value fanned out to both callers. -/
theorem cache_ttl_and_coalescing {V : Type} :
    (∀ (c : Cache V) (k : String) (v : Option V) (t0 t : Nat),
      t < t0 + cacheTTL →
      (c.completeRemote k v t0).1.beginLookup k t =
        ((c.completeRemote k v t0).1, LookupAction.hit v)) ∧
    (∀ (c : Cache V) (k : String) (t1 t2 : Nat),
      c.freshEntry k t1 = none →
      c.inflight.contains k = false →
      t1 ≤ t2 →
      (c.beginLookup k t1).2 = LookupAction.remoteCall ∧
      ((c.beginLookup k t1).1.beginLookup k t2).2 = LookupAction.joined ∧
      ∀ (v : Option V) (t3 : Nat),
        (((c.beginLookup k t1).1.beginLookup k t2).1.completeRemote k v t3).2 = v) := by
  constructor
  · intro c k v t0 t ht
    unfold Cache.completeRemote Cache.beginLookup Cache.freshEntry
    simp [List.find?_cons, ht]
  · intro c k t1 t2 hfresh hinflight h12
    have hstep1 : c.beginLookup k t1 =
        ({ c with inflight := k :: c.inflight }, LookupAction.remoteCall) := by
      unfold Cache.beginLookup
      rw [hfresh, hinflight]
      simp
    have hfresh2 : ({ c with inflight := k :: c.inflight } : Cache V).freshEntry k t2 = none := by
      have : ({ c with inflight := k :: c.inflight } : Cache V).freshEntry k t1 = none := hfresh
      exact freshEntry_none_mono _ k h12 this
    have hstep2 : ({ c with inflight := k :: c.inflight } : Cache V).beginLookup k t2 =
        ({ c with inflight := k :: c.inflight }, LookupAction.joined) := by
      unfold Cache.beginLookup
      rw [hfresh2]
      simp
    refine ⟨by rw [hstep1], by rw [hstep1]; dsimp only; rw [hstep2], ?_⟩
    intro v t3
    rw [hstep1]
    dsimp only
    rw [hstep2]
    rfl

/-- Witness for C8: a negative result completed at t=0 still answers at
t=29999 without a remote call, and two overlapping lookups for "k" issue
exactly one remote call sharing the completed value. -/
theorem cache_ttl_and_coalescing_witness :
    ((Cache.empty Nat).completeRemote "k" none 0).1.beginLookup "k" 29999 =
      (((Cache.empty Nat).completeRemote "k" none 0).1, LookupAction.hit none) ∧
    ((Cache.empty Nat).beginLookup "k" 0).2 = LookupAction.remoteCall ∧
    (((Cache.empty Nat).beginLookup "k" 0).1.beginLookup "k" 5).2 =
      LookupAction.joined ∧
    ((((Cache.empty Nat).beginLookup "k" 0).1.beginLookup "k" 5).1.completeRemote
      "k" (some 7) 9).2 = some 7 := by
  have h := cache_ttl_and_coalescing (V := Nat)
  obtain ⟨ha, hb, hc⟩ := h.2 (Cache.empty Nat) "k" 0 5 (by decide) (by decide)
    (by decide)
  exact ⟨h.1 (Cache.empty Nat) "k" none 0 29999 (by decide), ha, hb, hc (some 7) 9⟩

/-- Request fixture: elevated token presented while the server has no
secret configured. -/
def reqEnterNoSecretW : Request :=
  { headers := [("x-enter-token", "whatever")],
    token := none, ref := none, tokenSource := none }

/-- Counterexample for C9: with ENTER_TOKEN unset, a request presenting
an elevated token gets the ordinary fall-through resolution — byte-for-
byte the verdict of the same request without the header, ending in the
normal unauthenticated terminal verdict; nothing is escalated as a
fatal condition. -/
theorem enter_secret_missing_not_fatal :
    validateEnterToken (extractEnterToken reqEnterNoSecretW) envUnsetW = false ∧
    shouldBypassQueue svcW envUnsetW reqEnterNoSecretW =
      shouldBypassQueue svcW envUnsetW (removeEnterTokenHeader reqEnterNoSecretW) ∧
    (shouldBypassQueue svcW envUnsetW reqEnterNoSecretW).reason =
      "NO_AUTH_METHOD_SUCCESS" := by
  refine ⟨by decide, by decide, rfl⟩

/-- Claim C9 (amended): when the elevated-token secret is not
configured, a presented elevated token merely fails validation (after a
log message) and the cascade falls through exactly as for any other
failed strategy — the verdict equals that of the same request with the
elevated-token header removed; no strategy-layer condition is escalated
as fatal. -/
theorem enter_secret_missing_falls_through (svc : TrustService) (env : Env)
    (req : Request) (hunset : truthy env.ENTER_TOKEN = false) :
    validateEnterToken (extractEnterToken req) env = false ∧
    shouldBypassQueue svc env req =
      shouldBypassQueue svc env (removeEnterTokenHeader req) := by
  have hval : validateEnterToken (extractEnterToken req) env = false := by
    unfold validateEnterToken
    cases h : truthy (extractEnterToken req) with
    | false => simp [h]
    | true => simp [h, hunset]
  exact ⟨hval, invalidEnter_fallthrough svc env req hval⟩

/-- Witness for the amended C9 at the concrete misconfigured fixture. -/
theorem enter_secret_missing_falls_through_witness :
    validateEnterToken (extractEnterToken reqEnterNoSecretW) envUnsetW = false ∧
    shouldBypassQueue svcW envUnsetW reqEnterNoSecretW =
      shouldBypassQueue svcW envUnsetW (removeEnterTokenHeader reqEnterNoSecretW) :=
  enter_secret_missing_falls_through svcW envUnsetW reqEnterNoSecretW (by decide)

/-- Claim C10: the resolver's embedding is total (every lookup failure
is absorbed into null inside the cascade), so `handleAuthentication`
always returns the normal result — the verdict with its tier defaulted
from the debug record — and its INVALID_TOKEN catch branch can never
fire: no 401 "Invalid authentication token" error is ever produced. -/
theorem handleAuthentication_never_401 (svc : TrustService) (env : Env)
    (req : Request) :
    handleAuthentication svc env req =
      Except.ok { shouldBypassQueue svc env req with
        tier := some (jsOrStr (shouldBypassQueue svc env req).debugInfo.tier
          "anonymous") } ∧
    ∀ e : HandleAuthError ThrownError,
      handleAuthentication svc env req ≠ Except.error e := by
  refine ⟨rfl, ?_⟩
  intro e h
  rw [show handleAuthentication svc env req =
      Except.ok { shouldBypassQueue svc env req with
        tier := some (jsOrStr (shouldBypassQueue svc env req).debugInfo.tier
          "anonymous") } from rfl] at h
  exact Except.noConfusion h

/-- Witness for C10: the no-credential fixture never yields the 401. -/
theorem handleAuthentication_never_401_witness :
    handleAuthentication svcW envW reqNoneW ≠
      Except.error HandleAuthError.invalidToken401 :=
  (handleAuthentication_never_401 svcW envW reqNoneW).2
    HandleAuthError.invalidToken401

end Pollinations
